import Mathlib

/-!
# GoTogether matching-and-grouping core: a shallow embedding

This file embeds, in Lean 4, the core matching and auto-grouping logic of the
GoTogether backend (`backend/app/utils/auto_grouping.py`,
`backend/app/utils/matching.py`, `backend/app/routes/ride_requests.py`,
`backend/app/routes/notifications.py`) and proves, or refutes, the claims of
the natural-language specification about it.

Modelling conventions:
* Database rows are Lean structures; a table is a `List` of rows; the whole
  database is a `State` value.  SQLAlchemy object mutation becomes explicit
  state passing.
* Primary keys (UUIDs in the source) are modelled as `Nat` drawn from a
  fresh-id counter `State.nextId`.
* Timestamps are `Int` (minutes); the 6-hour pooling window is 360 minutes.
* Statuses are the `String` literals used by the source.
* Python floats in the match-scoring pipeline are modelled as `ℚ`, and the
  transcendental haversine distance is a parameter `dist` of the pipeline
  (its exact float value has no executable Lean counterpart); the haversine
  formula itself is modelled separately over `ℝ` for its algebraic claims.
* HTTP 4xx error responses become `Except String State`; raising before any
  mutation models the source's raise-then-no-commit behaviour.
-/

/-! ## String helpers: SQL `ILIKE '%pat%'` -/

/-- `listIsInfix needle hay`: `needle` occurs contiguously inside `hay`. -/
def listIsInfix (needle : List Char) : List Char → Bool
  | [] => needle.isEmpty
  | c :: rest => needle.isPrefixOf (c :: rest) || listIsInfix needle rest

/-- Case-insensitive substring containment, the semantics of
`column.ilike(f"%\x7bpat\x7d%")` on wildcard-free data (lower-casing is done
per character, which is exactly `String.toLower`). -/
def ilikeContains (hay pat : String) : Bool :=
  listIsInfix (pat.toList.map Char.toLower) (hay.toList.map Char.toLower)

/-! ## Data model (from `backend/app/models/`) -/

/-- `ride_requests` row (`models/ride_request.py`); columns not read by the
verified code paths are omitted. -/
structure RideRequest where
  id : Nat
  user_id : Nat
  source_address : String
  destination_address : String
  is_railway_station : Bool
  requested_time : Int
  status : String
  grouped_ride_id : Option Nat
  deriving Repr, DecidableEq

/-- `grouped_rides` row (`models/grouped_ride.py` plus the
`add_railway_station_trip_fields` migration that adds `total_seats`,
`is_railway_station_trip`, `auto_created`). -/
structure GroupedRide where
  id : Nat
  admin_id : Nat
  driver_id : Option Nat
  destination_address : String
  pickup_time : Int
  pickup_location : String
  total_seats : Nat
  is_railway_station_trip : Bool
  auto_created : Bool
  status : String
  deriving Repr, DecidableEq

/-- `ride_notifications` row (`models/ride_notification.py`). -/
structure RideNotification where
  id : Nat
  user_id : Nat
  grouped_ride_id : Nat
  notification_type : String
  status : String
  responded_at : Option Int
  deriving Repr, DecidableEq

/-- `system_notifications` row (`models/system_notification.py`). -/
structure SystemNotification where
  id : Nat
  user_id : Nat
  title : String
  message : String
  deriving Repr, DecidableEq

/-- `drivers` row (`models/driver.py`).  `updated_at` is the shared
`BaseModel` timestamp column (the base model file is not part of the sources;
the spec calls this field `lastAssignedAt`, touched on every row update). -/
structure Driver where
  id : Nat
  is_active : Bool
  is_verified : Bool
  availability_status : String
  assigned_rides_count : Nat
  updated_at : Int
  deriving Repr, DecidableEq

/-- The database: one list per table, plus a fresh-id counter standing for
UUID generation.  `admins` holds admin ids only (the dispatcher reads nothing
else from that table). -/
structure State where
  requests : List RideRequest
  groups : List GroupedRide
  ride_notifications : List RideNotification
  system_notifications : List SystemNotification
  drivers : List Driver
  admins : List Nat
  nextId : Nat
  deriving Repr, DecidableEq

/-- Number of `ride_requests` rows referencing a group: the SQLAlchemy
relationship `grouped_ride.ride_requests`. -/
def countGroupReqs (reqs : List RideRequest) (gid : Nat) : Nat :=
  reqs.countP (fun r => r.grouped_ride_id == some gid)

/-! ## `utils/auto_grouping.py` -/

/-- `calculate_available_seats`: `max(0, total_seats - len(ride_requests))`
(`Nat` subtraction is exactly the clamped difference). -/
def calculate_available_seats (s : State) (g : GroupedRide) : Nat :=
  g.total_seats - countGroupReqs s.requests g.id

/-- `find_matching_railway_station_trip`: railway trips whose destination
ILIKE-contains the request's destination, pickup time within ±6 h, status
`pending_acceptance` or `confirmed`; first such trip with a free seat. -/
def find_matching_railway_station_trip (s : State) (destination_address : String)
    (requested_time : Int) : Option GroupedRide :=
  let time_start := requested_time - 360
  let time_end := requested_time + 360
  let matching_trips := s.groups.filter (fun g =>
    g.is_railway_station_trip &&
    ilikeContains g.destination_address destination_address &&
    (time_start ≤ g.pickup_time && g.pickup_time ≤ time_end) &&
    (g.status == "pending_acceptance" || g.status == "confirmed"))
  matching_trips.find? (fun g => 0 < calculate_available_seats s g)

/-- Driver eligibility: the `filter` of `get_next_available_driver`. -/
def eligibleDriver (d : Driver) : Bool :=
  d.is_active && d.is_verified && d.availability_status == "available"

/-- Fold step realising `ORDER BY assigned_rides_count ASC, updated_at ASC`
followed by `.first()`: keep the strictly better row, earliest row on ties. -/
def pickDriver (acc : Option Driver) (d : Driver) : Option Driver :=
  match acc with
  | none => some d
  | some b =>
    if d.assigned_rides_count < b.assigned_rides_count ||
       (d.assigned_rides_count == b.assigned_rides_count && d.updated_at < b.updated_at)
    then some d else some b

/-- `get_next_available_driver`: active, verified, available drivers ordered
by `assigned_rides_count` then `updated_at`, first row. -/
def get_next_available_driver (s : State) : Option Driver :=
  (s.drivers.filter eligibleDriver).foldl pickDriver none

/-- `create_railway_station_trip`: pick the next driver; if none, fail; else
insert a new 4-seat auto-created group and increment the driver's
`assigned_rides_count`. -/
def create_railway_station_trip (s : State) (ride_request : RideRequest)
    (admin_id : Nat) : State × Option GroupedRide :=
  match get_next_available_driver s with
  | none => (s, none)
  | some driver =>
    let grouped_ride : GroupedRide :=
      { id := s.nextId
        admin_id := admin_id
        driver_id := some driver.id
        destination_address := ride_request.destination_address
        pickup_time := ride_request.requested_time
        pickup_location := ride_request.source_address
        total_seats := 4
        is_railway_station_trip := true
        auto_created := true
        status := "pending_acceptance" }
    ({ s with
        groups := s.groups ++ [grouped_ride]
        nextId := s.nextId + 1
        drivers := s.drivers.map (fun d =>
          if d.id == driver.id
          then { d with assigned_rides_count := d.assigned_rides_count + 1 }
          else d) },
     some grouped_ride)

/-- `add_to_existing_trip`: seat check, then set the request's group and
status and insert one ride-assignment notification plus one system
notification. -/
def add_to_existing_trip (s : State) (ride_request : RideRequest)
    (grouped_ride : GroupedRide) : State × Bool :=
  if calculate_available_seats s grouped_ride = 0 then (s, false)
  else
    let s1 := { s with
      requests := s.requests.map (fun r =>
        if r.id == ride_request.id
        then { r with grouped_ride_id := some grouped_ride.id, status := "grouped" }
        else r)
      ride_notifications := s.ride_notifications ++
        [{ id := s.nextId
           user_id := ride_request.user_id
           grouped_ride_id := grouped_ride.id
           notification_type := "ride_assignment"
           status := "pending"
           responded_at := none }]
      system_notifications := s.system_notifications ++
        [{ id := s.nextId + 1
           user_id := ride_request.user_id
           title := "Group Chat Available"
           message := "Your ride has been grouped! You can now chat with other passengers and the driver. Please accept or reject the ride assignment." }]
      nextId := s.nextId + 2 }
    (s1, true)

/-- `auto_group_railway_station_request`: search for a matching trip; attach
if possible, report `no_seats_available` if the attach-time seat check fails,
otherwise create a new trip with the next driver. -/
def auto_group_railway_station_request (s : State) (ride_request : RideRequest)
    (system_admin_id : Nat) : State × Option Nat × String :=
  match find_matching_railway_station_trip s ride_request.destination_address
      ride_request.requested_time with
  | some matching_trip =>
    let (s1, success) := add_to_existing_trip s ride_request matching_trip
    if success then (s1, some matching_trip.id, "added_to_existing")
    else (s1, none, "no_seats_available")
  | none =>
    let (s1, og) := create_railway_station_trip s ride_request system_admin_id
    match og with
    | some grouped_ride =>
      let (s2, _) := add_to_existing_trip s1 ride_request grouped_ride
      (s2, some grouped_ride.id, "new_trip_created")
    | none => (s1, none, "no_driver_available")

/-! ## `routes/ride_requests.py` — request creation with auto-grouping -/

/-- The request row built by `create_ride_request` (status `pending`, no
group). -/
def newRideRequest (s : State) (uid : Nat) (src dest : String) (time : Int)
    (railway : Bool) : RideRequest :=
  { id := s.nextId
    user_id := uid
    source_address := src
    destination_address := dest
    is_railway_station := railway
    requested_time := time
    status := "pending"
    grouped_ride_id := none }

/-- `create_ride_request` (happy path, exceptions modelled separately):
insert the request and commit; for railway-station requests with a system
admin present, run auto-grouping and commit only when a group came back. -/
def create_ride_request (s : State) (uid : Nat) (src dest : String)
    (time : Int) (railway : Bool) : State :=
  let req := newRideRequest s uid src dest time railway
  let s0 := { s with requests := s.requests ++ [req], nextId := s.nextId + 1 }
  if railway then
    match s0.admins.head? with
    | some system_admin =>
      let (s1, og, _) := auto_group_railway_station_request s0 req system_admin
      if og.isSome then s1 else s0
    | none => s0
  else s0

/-! ## `routes/notifications.py` — accept / reject / mark-read -/

/-- `accept_ride`: requires a pending notification owned by the caller; marks
it accepted with `responded_at`, marks the caller's request in that group
accepted, and confirms the group when every ride-assignment notification of
the group is accepted. -/
def accept_ride (s : State) (nid uid : Nat) (now : Int) : Except String State :=
  match s.ride_notifications.find? (fun m => m.id == nid && m.user_id == uid) with
  | none => .error "Notification not found"
  | some n =>
    if n.status != "pending" then .error "Notification already responded to"
    else
      let notis1 := s.ride_notifications.map (fun m =>
        if m.id == n.id then { m with status := "accepted", responded_at := some now } else m)
      let requests1 :=
        match s.requests.find? (fun r =>
            r.user_id == uid && r.grouped_ride_id == some n.grouped_ride_id) with
        | some rr => s.requests.map (fun r =>
            if r.id == rr.id then { r with status := "accepted" } else r)
        | none => s.requests
      match s.groups.find? (fun g => g.id == n.grouped_ride_id) with
      | none => .error "Grouped ride not found"
      | some g =>
        let all_notifications := notis1.filter (fun m =>
          m.grouped_ride_id == g.id && m.notification_type == "ride_assignment")
        let groups1 :=
          if all_notifications.all (fun m => m.status == "accepted")
          then s.groups.map (fun x =>
            if x.id == g.id then { x with status := "confirmed" } else x)
          else s.groups
        .ok { s with ride_notifications := notis1, requests := requests1, groups := groups1 }

/-- `reject_ride`: requires a pending notification owned by the caller; marks
it rejected with `responded_at`, and marks the caller's request in that group
rejected with its `grouped_ride_id` cleared. -/
def reject_ride (s : State) (nid uid : Nat) (now : Int) : Except String State :=
  match s.ride_notifications.find? (fun m => m.id == nid && m.user_id == uid) with
  | none => .error "Notification not found"
  | some n =>
    if n.status != "pending" then .error "Notification already responded to"
    else
      let notis1 := s.ride_notifications.map (fun m =>
        if m.id == n.id then { m with status := "rejected", responded_at := some now } else m)
      let requests1 :=
        match s.requests.find? (fun r =>
            r.user_id == uid && r.grouped_ride_id == some n.grouped_ride_id) with
        | some rr => s.requests.map (fun r =>
            if r.id == rr.id then { r with status := "rejected", grouped_ride_id := none } else r)
        | none => s.requests
      .ok { s with ride_notifications := notis1, requests := requests1 }

/-- `mark_notification_read`: requires an owned notification; sets its status
to `read` unconditionally, whatever the prior status. -/
def mark_notification_read (s : State) (nid uid : Nat) : Except String State :=
  match s.ride_notifications.find? (fun m => m.id == nid && m.user_id == uid) with
  | none => .error "Notification not found"
  | some n =>
    .ok { s with ride_notifications := s.ride_notifications.map (fun m =>
      if m.id == n.id then { m with status := "read" } else m) }

/-! ## Operation sequences (for the global seat-capacity invariant) -/

/-- One externally triggered call into the dispatcher or the notification
state machine. -/
inductive Op where
  | create (uid : Nat) (src dest : String) (time : Int) (railway : Bool)
  | accept (nid uid : Nat) (now : Int)
  | reject (nid uid : Nat) (now : Int)
  deriving Repr, DecidableEq

/-- Apply one operation; a 4xx error leaves the database unchanged (the
handler raises before any mutation). -/
def applyOp (s : State) : Op → State
  | .create uid src dest time railway => create_ride_request s uid src dest time railway
  | .accept nid uid now =>
    match accept_ride s nid uid now with
    | .ok s1 => s1
    | .error _ => s
  | .reject nid uid now =>
    match reject_ride s nid uid now with
    | .ok s1 => s1
    | .error _ => s

/-- Run a call sequence. -/
def runOps (s : State) (ops : List Op) : State :=
  ops.foldl applyOp s

/-- A fresh deployment: empty tables apart from a given driver pool and the
admin list. -/
def initState (drivers : List Driver) (admins : List Nat) : State :=
  { requests := []
    groups := []
    ride_notifications := []
    system_notifications := []
    drivers := drivers
    admins := admins
    nextId := 0 }

/-- The spec's occupied-seat count: requests referencing the group whose
status is neither rejected nor cancelled. -/
def occupiedSeatsSpec (s : State) (gid : Nat) : Nat :=
  s.requests.countP (fun r =>
    r.grouped_ride_id == some gid &&
    !(r.status == "rejected" || r.status == "cancelled"))

/-! ## `utils/matching.py` — candidate scoring and ranking

Python floats are modelled as `ℚ`; the transcendental haversine value feeding
the pipeline is a parameter `dist`, since the pipeline's control flow and
sorting are independent of how distances are produced. -/

/-- `Location` dataclass. -/
structure Location where
  lat : ℚ
  lng : ℚ
  deriving Repr, DecidableEq

/-- `TripQuery` dataclass. -/
structure TripQuery where
  origin : Location
  destination : Location
  departure_time : Int
  max_origin_distance : ℚ
  max_dest_distance : ℚ
  time_window_minutes : Int
  deriving Repr, DecidableEq

/-- `TripCandidate` dataclass (string ids modelled as `Nat`). -/
structure TripCandidate where
  id : Nat
  origin : Location
  destination : Location
  departure_time : Int
  available_seats : Int
  fare_per_person : ℚ
  driver_name : String
  driver_rating : ℚ
  deriving Repr, DecidableEq

/-- `TripMatch` dataclass. -/
structure TripMatch where
  candidate : TripCandidate
  origin_distance : ℚ
  dest_distance : ℚ
  time_difference_minutes : Int
  match_score : ℚ
  deriving Repr, DecidableEq

/-- `calculate_match_score`: 50% distance, 30% time, 20% rating, clamped to
[0, 1]. -/
def calculate_match_score (query : TripQuery) (candidate : TripCandidate)
    (origin_distance dest_distance : ℚ) (time_diff_minutes : Int) : ℚ :=
  let max_total_distance := query.max_origin_distance + query.max_dest_distance
  let actual_total_distance := origin_distance + dest_distance
  let distance_score := max 0 (1 - actual_total_distance / max_total_distance)
  let time_score := max 0 (1 - ((time_diff_minutes.natAbs : ℚ) / (query.time_window_minutes : ℚ)))
  let rating_score := candidate.driver_rating / 5
  min 1 (max 0 (distance_score * (1/2) + time_score * (3/10) + rating_score * (1/5)))

/-- The comparator of `matches.sort(key=lambda x: x.match_score, reverse=True)`:
Python's sort is stable, and a stable descending sort keeps `a` before `b`
whenever `b`'s key is not larger. -/
def scoreDescLE (a b : TripMatch) : Bool :=
  decide (b.match_score ≤ a.match_score)

/-- The filtering-and-scoring loop body of `find_matching_trips`: drop
seatless candidates, filter by the two distance maxima and the time window,
score.  `dist` abstracts `haversine_distance`. -/
def buildMatches (dist : Location → Location → ℚ) (query : TripQuery)
    (candidates : List TripCandidate) : List TripMatch :=
  candidates.filterMap (fun candidate =>
    if candidate.available_seats ≤ 0 then none
    else
      let origin_distance := dist query.origin candidate.origin
      let dest_distance := dist query.destination candidate.destination
      if origin_distance > query.max_origin_distance ||
         dest_distance > query.max_dest_distance then none
      else
        let time_diff : Int := (candidate.departure_time - query.departure_time).natAbs
        if time_diff > query.time_window_minutes then none
        else some
          { candidate := candidate
            origin_distance := origin_distance
            dest_distance := dest_distance
            time_difference_minutes := time_diff
            match_score := calculate_match_score query candidate
              origin_distance dest_distance time_diff })

/-- `find_matching_trips` = build the filtered match list, then the stable
descending sort. -/
def find_matching_trips (dist : Location → Location → ℚ) (query : TripQuery)
    (candidates : List TripCandidate) : List TripMatch :=
  (buildMatches dist query candidates).mergeSort scoreDescLE

/-- The ordering asserted by the spec for `rank` output: strictly descending
score, with equal scores ordered by ascending candidate id. -/
def sortedByScoreDescIdAsc (l : List TripMatch) : Prop :=
  l.Pairwise (fun a b =>
    b.match_score < a.match_score ∨
    (b.match_score = a.match_score ∧ a.candidate.id < b.candidate.id))

/-- Degenerate distance oracle used to exhibit a concrete tie. -/
def distZero : Location → Location → ℚ := fun _ _ => 0

/-- Concrete query for the tie-break counterexample. -/
def tieQuery : TripQuery :=
  { origin := { lat := 0, lng := 0 }
    destination := { lat := 0, lng := 0 }
    departure_time := 0
    max_origin_distance := 2
    max_dest_distance := 3
    time_window_minutes := 15 }

/-- Candidate with id 2, listed first. -/
def tieCand2 : TripCandidate :=
  { id := 2
    origin := { lat := 0, lng := 0 }
    destination := { lat := 0, lng := 0 }
    departure_time := 0
    available_seats := 1
    fare_per_person := 0
    driver_name := "d2"
    driver_rating := 5 }

/-- Candidate with id 1, identical scoring inputs, listed second. -/
def tieCand1 : TripCandidate :=
  { id := 1
    origin := { lat := 0, lng := 0 }
    destination := { lat := 0, lng := 0 }
    departure_time := 0
    available_seats := 1
    fare_per_person := 0
    driver_name := "d1"
    driver_rating := 5 }

/-! ## `haversine_distance` over the reals

The great-circle formula itself is embedded over `ℝ` (Python floats have no
exact Lean counterpart; the claims about this function are algebraic
identities of the formula). -/

/-- Coordinates for the real-valued distance formula. -/
structure LocationR where
  lat : ℝ
  lng : ℝ

/-- A coordinate validated by `Location.__post_init__`. -/
def LocationR.valid (l : LocationR) : Prop :=
  -90 ≤ l.lat ∧ l.lat ≤ 90 ∧ -180 ≤ l.lng ∧ l.lng ≤ 180

/-- `math.radians`. -/
noncomputable def radiansR (d : ℝ) : ℝ := d * Real.pi / 180

/-- `haversine_distance`: spherical-earth great-circle distance, radius
6371 km. -/
noncomputable def haversine_distance (loc1 loc2 : LocationR) : ℝ :=
  let lat1 := radiansR loc1.lat
  let lng1 := radiansR loc1.lng
  let lat2 := radiansR loc2.lat
  let lng2 := radiansR loc2.lng
  let dlat := lat2 - lat1
  let dlng := lng2 - lng1
  let a := Real.sin (dlat / 2) ^ 2 +
    Real.cos lat1 * Real.cos lat2 * Real.sin (dlng / 2) ^ 2
  let c := 2 * Real.arcsin (Real.sqrt a)
  6371 * c

/-! ## Two interleaved dispatcher calls (concurrency model for the
search-then-attach race)

`auto_group_railway_station_request` runs inside one request handler; under
concurrency its search phase and its attach phase can be separated by another
handler's steps.  A `Worker` is one in-flight call, its phase recording how
far it has run; `workerStep` executes one phase against the shared database,
following the source's control flow exactly. -/

/-- Progress of one in-flight `auto_group_railway_station_request` call. -/
inductive Phase where
  | searching
  | attaching (gid : Nat)
  | done (result : Option Nat) (msg : String)
  deriving Repr, DecidableEq

/-- One in-flight dispatcher call. -/
structure Worker where
  req : RideRequest
  phase : Phase
  deriving Repr, DecidableEq

/-- Run one phase of a dispatcher call.  The search phase records the found
group; the attach phase re-runs `add_to_existing_trip` against the current
database; the creation phase (search found nothing) runs to completion. -/
def workerStep (system_admin_id : Nat) (s : State) (w : Worker) : State × Worker :=
  match w.phase with
  | .done _ _ => (s, w)
  | .searching =>
    match find_matching_railway_station_trip s w.req.destination_address
        w.req.requested_time with
    | some trip => (s, { w with phase := .attaching trip.id })
    | none =>
      let (s1, og) := create_railway_station_trip s w.req system_admin_id
      match og with
      | some grouped_ride =>
        let (s2, _) := add_to_existing_trip s1 w.req grouped_ride
        (s2, { w with phase := .done (some grouped_ride.id) "new_trip_created" })
      | none => (s1, { w with phase := .done none "no_driver_available" })
  | .attaching gid =>
    match s.groups.find? (fun g => g.id == gid) with
    | some g =>
      let (s1, ok) := add_to_existing_trip s w.req g
      if ok then (s1, { w with phase := .done (some gid) "added_to_existing" })
      else (s1, { w with phase := .done none "no_seats_available" })
    | none => (s, { w with phase := .done none "no_seats_available" })

/-- Interleave two dispatcher calls under a schedule (`false` steps the
first worker, `true` the second). -/
def runSchedule (system_admin_id : Nat) : State → Worker × Worker → List Bool →
    State × Worker × Worker
  | s, ws, [] => (s, ws)
  | s, (w0, w1), false :: rest =>
    let (s1, w0x) := workerStep system_admin_id s w0
    runSchedule system_admin_id s1 (w0x, w1) rest
  | s, (w0, w1), true :: rest =>
    let (s1, w1x) := workerStep system_admin_id s w1
    runSchedule system_admin_id s1 (w0, w1x) rest

/-! ## Transactional model of `create_ride_request` (failure semantics)

A SQLAlchemy session is a committed database plus a working copy; ordinary
statements touch only the working copy, `commit` publishes it, `rollback`
discards it.  The auto-grouping call is decomposed into the primitive
session statements it issues, so that an exception can be injected after any
prefix of them; the route's `except` branch then rolls back, records a
system notification, and commits, exactly as
`routes/ride_requests.py` does. -/

/-- One primitive session statement issued by the auto-grouping code path. -/
inductive Prim where
  | setReqGrouped (rid gid : Nat)
  | addRideNoti (uid gid : Nat)
  | addSysNoti (uid : Nat) (title message : String)
  | addGroup (g : GroupedRide)
  | incDriver (did : Nat)
  | commit
  | rollback
  deriving Repr, DecidableEq

/-- Effect of a primitive statement on a plain database state (`commit` and
`rollback` are session-level and do nothing here). -/
def applyPrim (s : State) : Prim → State
  | .setReqGrouped rid gid =>
    { s with requests := s.requests.map (fun r =>
        if r.id == rid then { r with grouped_ride_id := some gid, status := "grouped" } else r) }
  | .addRideNoti uid gid =>
    { s with
      ride_notifications := s.ride_notifications ++
        [{ id := s.nextId, user_id := uid, grouped_ride_id := gid,
           notification_type := "ride_assignment", status := "pending",
           responded_at := none }]
      nextId := s.nextId + 1 }
  | .addSysNoti uid title message =>
    { s with
      system_notifications := s.system_notifications ++
        [{ id := s.nextId, user_id := uid, title := title, message := message }]
      nextId := s.nextId + 1 }
  | .addGroup g => { s with groups := s.groups ++ [g], nextId := s.nextId + 1 }
  | .incDriver did =>
    { s with drivers := s.drivers.map (fun d =>
        if d.id == did then { d with assigned_rides_count := d.assigned_rides_count + 1 } else d) }
  | .commit => s
  | .rollback => s

/-- A session: the committed database and the working copy. -/
structure DBSession where
  committed : State
  working : State
  deriving Repr, DecidableEq

/-- Effect of a primitive statement at the session level. -/
def applySessionPrim (ss : DBSession) (p : Prim) : DBSession :=
  match p with
  | .commit => { committed := ss.working, working := ss.working }
  | .rollback => { ss with working := ss.committed }
  | _ => { ss with working := applyPrim ss.working p }

/-- The chat system-notification text inserted on attach. -/
def chatNotiMessage : String :=
  "Your ride has been grouped! You can now chat with other passengers and the driver. Please accept or reject the ride assignment."

/-- The primitive statements `auto_group_railway_station_request` issues from
state `s`, with its return value.  Mirrors the source branch for branch; on
the creation path the attach's seat check runs against the state after the
group insert and driver increment, as in the source. -/
def autoGroupPrims (s : State) (ride_request : RideRequest) (system_admin_id : Nat) :
    List Prim × Option Nat × String :=
  match find_matching_railway_station_trip s ride_request.destination_address
      ride_request.requested_time with
  | some matching_trip =>
    if calculate_available_seats s matching_trip = 0 then ([], none, "no_seats_available")
    else
      ([.setReqGrouped ride_request.id matching_trip.id,
        .addRideNoti ride_request.user_id matching_trip.id,
        .addSysNoti ride_request.user_id "Group Chat Available" chatNotiMessage],
       some matching_trip.id, "added_to_existing")
  | none =>
    match get_next_available_driver s with
    | none => ([], none, "no_driver_available")
    | some driver =>
      let g : GroupedRide :=
        { id := s.nextId
          admin_id := system_admin_id
          driver_id := some driver.id
          destination_address := ride_request.destination_address
          pickup_time := ride_request.requested_time
          pickup_location := ride_request.source_address
          total_seats := 4
          is_railway_station_trip := true
          auto_created := true
          status := "pending_acceptance" }
      let s1 := applyPrim (applyPrim s (.addGroup g)) (.incDriver driver.id)
      ([Prim.addGroup g, Prim.incDriver driver.id] ++
        (if calculate_available_seats s1 g = 0 then []
         else [.setReqGrouped ride_request.id g.id,
               .addRideNoti ride_request.user_id g.id,
               .addSysNoti ride_request.user_id "Group Chat Available" chatNotiMessage]),
       some g.id, "new_trip_created")

/-- The admin-error system-notification text of the route's `except` branch. -/
def adminNotiMessage : String :=
  "Your railway station ride request has been created. An admin will group your ride shortly."

/-- `create_ride_request` for a railway-station request at session level,
with an optional injected exception: `failAt = some k` aborts the
auto-grouping after its `k`-th primitive statement, triggering the route's
rollback-and-notify branch. -/
def create_ride_request_session (s : State) (uid : Nat) (src dest : String)
    (time : Int) (failAt : Option Nat) : DBSession :=
  let req := newRideRequest s uid src dest time true
  let s0 := { s with requests := s.requests ++ [req], nextId := s.nextId + 1 }
  let ss0 : DBSession := { committed := s0, working := s0 }
  match s0.admins.head? with
  | none => ss0
  | some system_admin =>
    let (ps, og, _) := autoGroupPrims s0 req system_admin
    match failAt with
    | none =>
      let ss1 := ps.foldl applySessionPrim ss0
      if og.isSome then applySessionPrim ss1 .commit else ss1
    | some k =>
      let ss1 := (ps.take k).foldl applySessionPrim ss0
      let ss2 := applySessionPrim ss1 .rollback
      let ss3 := { ss2 with working := (applyPrim ss2.working
        (.addSysNoti uid "Ride Request Created" adminNotiMessage)) }
      applySessionPrim ss3 .commit

/-! ## Invariants and claim-level predicates -/

/-- Per-group seat bound, with the relationship count the source uses. -/
def SeatInv (s : State) : Prop :=
  ∀ g ∈ s.groups, countGroupReqs s.requests g.id ≤ g.total_seats

/-- Freshness of the id counter over requests (row id and group reference). -/
def FreshReq (s : State) : Prop :=
  ∀ r ∈ s.requests, r.id < s.nextId ∧ ∀ gid, r.grouped_ride_id = some gid → gid < s.nextId

/-- Freshness of the id counter over groups. -/
def FreshGrp (s : State) : Prop :=
  ∀ g ∈ s.groups, g.id < s.nextId

/-- Group ids are pairwise distinct. -/
def GrpNodup (s : State) : Prop :=
  s.groups.Pairwise (fun a b => a.id ≠ b.id)

/-- The full inductive invariant carried through operation sequences. -/
def DBInv (s : State) : Prop :=
  SeatInv s ∧ FreshReq s ∧ FreshGrp s ∧ GrpNodup s

/-- Ride-assignment notifications held by a `(requester, group)` pair. -/
def notiCountFor (s : State) (uid gid : Nat) : Nat :=
  s.ride_notifications.countP (fun m =>
    m.user_id == uid && m.grouped_ride_id == gid &&
    m.notification_type == "ride_assignment")

/-- Status of the request row with a given id. -/
def reqStatusById (s : State) (rid : Nat) : Option String :=
  (s.requests.find? (fun r => r.id == rid)).map (fun r => r.status)

/-- Status of the group row with a given id. -/
def groupStatusById (s : State) (gid : Nat) : Option String :=
  (s.groups.find? (fun g => g.id == gid)).map (fun g => g.status)

/-- The notification row with a given id. -/
def notiById (s : State) (nid : Nat) : Option RideNotification :=
  s.ride_notifications.find? (fun m => m.id == nid)

/-- The driver fairness order asserted by the spec: strictly fewer assigned
rides, or equally many and an `updated_at` that is not later. -/
def driverLE (d e : Driver) : Prop :=
  d.assigned_rides_count < e.assigned_rides_count ∨
    (d.assigned_rides_count = e.assigned_rides_count ∧ d.updated_at ≤ e.updated_at)

/-! ## Concrete example data (inputs for closed instances) -/

/-- An always-eligible driver. -/
def exDriver : Driver :=
  { id := 50, is_active := true, is_verified := true,
    availability_status := "available", assigned_rides_count := 0, updated_at := 0 }

/-- A railway-station group with three seats already taken. -/
def c2Group : GroupedRide :=
  { id := 0, admin_id := 7, driver_id := some 50,
    destination_address := "railway station", pickup_time := 0,
    pickup_location := "campus", total_seats := 4,
    is_railway_station_trip := true, auto_created := true,
    status := "pending_acceptance" }

/-- An attached (grouped) request occupying a seat of `c2Group`. -/
def c2Attached (i : Nat) : RideRequest :=
  { id := i, user_id := i, source_address := "campus",
    destination_address := "railway station", is_railway_station := true,
    requested_time := 0, status := "grouped", grouped_ride_id := some 0 }

/-- A fresh pending railway-station request. -/
def c2Fresh (i : Nat) : RideRequest :=
  { id := i, user_id := i, source_address := "campus",
    destination_address := "railway station", is_railway_station := true,
    requested_time := 0, status := "pending", grouped_ride_id := none }

/-- Database with one group holding 3/4 seats, an eligible driver, and the
two already-inserted pending requests the in-flight calls are grouping. -/
def c2State : State :=
  { requests := [c2Attached 1, c2Attached 2, c2Attached 3, c2Fresh 10, c2Fresh 11]
    groups := [c2Group]
    ride_notifications := []
    system_notifications := []
    drivers := [exDriver]
    admins := [7]
    nextId := 20 }

/-- First in-flight dispatcher call (request id 10). -/
def c2W0 : Worker := { req := c2Fresh 10, phase := .searching }

/-- Second in-flight dispatcher call (request id 11). -/
def c2W1 : Worker := { req := c2Fresh 11, phase := .searching }

/-- The interleaving where both calls search before either attaches. -/
def c2Run : State × Worker × Worker :=
  runSchedule 7 c2State (c2W0, c2W1) [false, true, false, true]

/-- Two requests by the same user for the same destination and time. -/
def c6Ops : List Op :=
  [Op.create 1 "campus" "railway station" 0 true,
   Op.create 1 "campus" "railway station" 0 true]

/-- Fresh deployment with one driver and one admin. -/
def c6Init : State := initState [exDriver] [7]

/-- Database after the two same-user requests were auto-grouped. -/
def c6Final : State := runOps c6Init c6Ops

/-- Group whose second member has already rejected: the rejected request has
left the group (its `grouped_ride_id` is cleared) but its notification row
remains `rejected`. -/
def c7State : State :=
  { requests :=
      [{ id := 1, user_id := 1, source_address := "campus",
         destination_address := "railway station", is_railway_station := true,
         requested_time := 0, status := "grouped", grouped_ride_id := some 0 },
       { id := 2, user_id := 2, source_address := "campus",
         destination_address := "railway station", is_railway_station := true,
         requested_time := 0, status := "rejected", grouped_ride_id := none }]
    groups := [c2Group]
    ride_notifications :=
      [{ id := 3, user_id := 1, grouped_ride_id := 0,
         notification_type := "ride_assignment", status := "pending",
         responded_at := none },
       { id := 4, user_id := 2, grouped_ride_id := 0,
         notification_type := "ride_assignment", status := "rejected",
         responded_at := some 1 }]
    system_notifications := []
    drivers := [exDriver]
    admins := [7]
    nextId := 20 }

/-- State after the remaining member accepts in `c7State`. -/
def c7After : State := (accept_ride c7State 3 1 5).toOption.getD c7State

/-- Group of two members, both notifications still pending. -/
def c8State : State :=
  { requests :=
      [{ id := 1, user_id := 1, source_address := "campus",
         destination_address := "railway station", is_railway_station := true,
         requested_time := 0, status := "grouped", grouped_ride_id := some 0 },
       { id := 2, user_id := 2, source_address := "campus",
         destination_address := "railway station", is_railway_station := true,
         requested_time := 0, status := "grouped", grouped_ride_id := some 0 }]
    groups := [c2Group]
    ride_notifications :=
      [{ id := 3, user_id := 1, grouped_ride_id := 0,
         notification_type := "ride_assignment", status := "pending",
         responded_at := none },
       { id := 4, user_id := 2, grouped_ride_id := 0,
         notification_type := "ride_assignment", status := "pending",
         responded_at := none }]
    system_notifications := []
    drivers := [exDriver]
    admins := [7]
    nextId := 20 }

/-- Driver pool exercising the fairness ordering: driver 2 has fewer
assigned rides than driver 1; driver 3 is not available. -/
def wDriver1 : Driver :=
  { id := 1, is_active := true, is_verified := true,
    availability_status := "available", assigned_rides_count := 2, updated_at := 5 }

/-- See `wDriver1`. -/
def wDriver2 : Driver :=
  { id := 2, is_active := true, is_verified := true,
    availability_status := "available", assigned_rides_count := 1, updated_at := 9 }

/-- See `wDriver1`. -/
def wDriver3 : Driver :=
  { id := 3, is_active := true, is_verified := true,
    availability_status := "busy", assigned_rides_count := 0, updated_at := 0 }

/-- State holding the three-driver pool. -/
def wState5 : State :=
  { requests := [], groups := [], ride_notifications := [],
    system_notifications := [], drivers := [wDriver1, wDriver2, wDriver3],
    admins := [7], nextId := 0 }

/-- The match row produced for `tieCand2` under `distZero`. -/
def tieMatch2 : TripMatch :=
  { candidate := tieCand2, origin_distance := 0, dest_distance := 0,
    time_difference_minutes := 0, match_score := 1 }

/-- The match row produced for `tieCand1` under `distZero`. -/
def tieMatch1 : TripMatch :=
  { candidate := tieCand1, origin_distance := 0, dest_distance := 0,
    time_difference_minutes := 0, match_score := 1 }

/-! # Theorems -/

/-! ## Shared helper lemmas -/

theorem driverLE_refl (d : Driver) : driverLE d d := Or.inr ⟨rfl, le_refl _⟩

theorem driverLE_trans {a b c : Driver} (h1 : driverLE a b) (h2 : driverLE b c) :
    driverLE a c := by
  unfold driverLE at *
  rcases h1 with h1 | ⟨h1, h1u⟩ <;> rcases h2 with h2 | ⟨h2, h2u⟩
  · exact Or.inl (h1.trans h2)
  · exact Or.inl (h2 ▸ h1)
  · exact Or.inl (h1 ▸ h2)
  · exact Or.inr ⟨h1.trans h2, h1u.trans h2u⟩

theorem foldl_pickDriver (l : List Driver) (b : Driver) :
    ∃ d, l.foldl pickDriver (some b) = some d ∧ (d = b ∨ d ∈ l) ∧
      driverLE d b ∧ ∀ e ∈ l, driverLE d e := by
  induction l generalizing b with
  | nil => exact ⟨b, rfl, Or.inl rfl, driverLE_refl b, by simp⟩
  | cons c t ih =>
    rw [List.foldl_cons]
    by_cases hlt : (c.assigned_rides_count < b.assigned_rides_count ||
        (c.assigned_rides_count == b.assigned_rides_count && c.updated_at < b.updated_at)) = true
    · have hstep : pickDriver (some b) c = some c := by
        simp only [pickDriver, hlt, if_true]
      rw [hstep]
      obtain ⟨d, hd, hmem, hle, hall⟩ := ih c
      have hcb : driverLE c b := by
        simp only [Bool.or_eq_true, decide_eq_true_eq, Bool.and_eq_true, beq_iff_eq] at hlt
        rcases hlt with h | ⟨h, hu⟩
        · exact Or.inl h
        · exact Or.inr ⟨h, le_of_lt hu⟩
      refine ⟨d, hd, ?_, driverLE_trans hle hcb, ?_⟩
      · rcases hmem with rfl | hm
        · exact Or.inr (List.mem_cons_self _ _)
        · exact Or.inr (List.mem_cons_of_mem _ hm)
      · intro e he
        rcases List.mem_cons.mp he with rfl | hm
        · exact hle
        · exact hall e hm
    · have hstep : pickDriver (some b) c = some b := by
        simp only [pickDriver, hlt]
        rfl
      rw [hstep]
      obtain ⟨d, hd, hmem, hle, hall⟩ := ih b
      have hbc : driverLE b c := by
        simp only [Bool.or_eq_true, decide_eq_true_eq, Bool.and_eq_true, beq_iff_eq,
          not_or, not_and, Nat.not_lt] at hlt
        rcases Nat.lt_or_ge b.assigned_rides_count c.assigned_rides_count with h | h
        · exact Or.inl h
        · have heq : c.assigned_rides_count = b.assigned_rides_count :=
            Nat.le_antisymm h hlt.1
          exact Or.inr ⟨heq.symm, le_of_not_lt (by simpa [heq] using hlt.2)⟩
      refine ⟨d, hd, ?_, hle, ?_⟩
      · rcases hmem with rfl | hm
        · exact Or.inl rfl
        · exact Or.inr (List.mem_cons_of_mem _ hm)
      · intro e he
        rcases List.mem_cons.mp he with rfl | hm
        · exact driverLE_trans hle hbc
        · exact hall e hm

/-- C5: `nextDriver` returns `none` exactly when no pooled driver is active,
verified and available; otherwise it returns an eligible driver with minimal
`assigned_rides_count`, ties broken by the earliest `updated_at` (the spec's
`lastAssignedAt`), and it never returns a driver that is not available. -/
theorem get_next_available_driver_spec (s : State) :
    (get_next_available_driver s = none ↔ ∀ d ∈ s.drivers, eligibleDriver d = false) ∧
    ∀ d, get_next_available_driver s = some d →
      d ∈ s.drivers ∧ eligibleDriver d = true ∧ d.availability_status = "available" ∧
      ∀ e ∈ s.drivers, eligibleDriver e = true → driverLE d e := by
  unfold get_next_available_driver
  rcases hf : s.drivers.filter eligibleDriver with _ | ⟨c, t⟩
  · rw [List.foldl_nil]
    constructor
    · constructor
      · intro _ d hd
        have := List.filter_eq_nil_iff.mp hf d hd
        simpa using this
      · intro _; rfl
    · intro d hd; cases hd
  · rw [List.foldl_cons]
    have hq : pickDriver none c = some c := rfl
    rw [hq]
    obtain ⟨d0, hd0, hmem, hPb, hPall⟩ := foldl_pickDriver t c
    rw [hd0]
    have hmem0 : d0 ∈ s.drivers.filter eligibleDriver := by
      rw [hf]
      rcases hmem with rfl | hm
      · exact List.mem_cons_self _ _
      · exact List.mem_cons_of_mem _ hm
    have hd0drv : d0 ∈ s.drivers := (List.mem_filter.mp hmem0).1
    have hd0el : eligibleDriver d0 = true := (List.mem_filter.mp hmem0).2
    constructor
    · constructor
      · intro h; cases h
      · intro hall
        have := hall d0 hd0drv
        rw [hd0el] at this; cases this
    · intro d hd
      have hdd : d = d0 := by injection hd with h; exact h.symm
      subst hdd
      refine ⟨hd0drv, hd0el, ?_, ?_⟩
      · have := hd0el
        unfold eligibleDriver at this
        simp only [Bool.and_eq_true, beq_iff_eq] at this
        exact this.2
      · intro e he hel
        have hef : e ∈ s.drivers.filter eligibleDriver := List.mem_filter.mpr ⟨he, hel⟩
        rw [hf] at hef
        rcases List.mem_cons.mp hef with rfl | hm
        · exact hPb
        · exact hPall e hm

/-- Witness for C5 at a concrete pool: driver 2 (fewest assigned rides) is
selected ahead of driver 1, and the unavailable driver 3 is never picked. -/
theorem get_next_available_driver_spec_witness :
    get_next_available_driver wState5 = some wDriver2 ∧
    wDriver2 ∈ wState5.drivers ∧ eligibleDriver wDriver2 = true ∧
    wDriver2.availability_status = "available" ∧ driverLE wDriver2 wDriver1 := by
  have h := (get_next_available_driver_spec wState5).2 wDriver2 (by decide)
  exact ⟨by decide, h.1, h.2.1, h.2.2.1, h.2.2.2 wDriver1 (by decide) (by decide)⟩

/-! ## C9: haversine identities -/

/-- C9: for validated coordinates the haversine distance from a point to
itself is exactly 0, and the distance is symmetric; the formula is total, so
there is no failure mode for validated input. -/
theorem haversine_distance_spec (a b : LocationR) (ha : a.valid) (hb : b.valid) :
    haversine_distance a a = 0 ∧ haversine_distance a b = haversine_distance b a := by
  constructor
  · simp [haversine_distance, radiansR, sub_self]
  · simp only [haversine_distance, radiansR]
    have hs : ∀ x y : ℝ, Real.sin ((x - y) / 2) ^ 2 = Real.sin ((y - x) / 2) ^ 2 := by
      intro x y
      rw [show (x - y) / 2 = -((y - x) / 2) by ring, Real.sin_neg]
      ring
    congr 2
    congr 1
    congr 1
    rw [hs (b.lat * Real.pi / 180) (a.lat * Real.pi / 180),
      hs (b.lng * Real.pi / 180) (a.lng * Real.pi / 180)]
    ring

/-- Witness for C9 at the coordinates of the source's own test data. -/
theorem haversine_distance_spec_witness :
    haversine_distance ⟨22.253, 84.901⟩ ⟨22.253, 84.901⟩ = 0 ∧
    haversine_distance ⟨22.253, 84.901⟩ ⟨22.270, 84.900⟩ =
      haversine_distance ⟨22.270, 84.900⟩ ⟨22.253, 84.901⟩ :=
  haversine_distance_spec ⟨22.253, 84.901⟩ ⟨22.270, 84.900⟩
    (by constructor <;> norm_num)
    (by constructor <;> norm_num)

/-! ## C4: ranking order -/

theorem scoreDescLE_trans (a b c : TripMatch)
    (h1 : scoreDescLE a b) (h2 : scoreDescLE b c) : scoreDescLE a c := by
  simp only [scoreDescLE, decide_eq_true_eq] at *
  exact h2.trans h1

theorem scoreDescLE_total (a b : TripMatch) : scoreDescLE a b || scoreDescLE b a := by
  simp only [scoreDescLE, Bool.or_eq_true, decide_eq_true_eq]
  exact le_total b.match_score a.match_score

theorem mergeSort_pair {α : Type} (le : α → α → Bool) (a b : α) :
    [a, b].mergeSort le = if le a b then [a, b] else [b, a] := by
  rw [List.mergeSort]
  simp [List.splitInTwo, List.splitAt_eq, List.merge]

theorem buildMatches_tie :
    buildMatches distZero tieQuery [tieCand2, tieCand1] = [tieMatch2, tieMatch1] := by
  simp only [buildMatches, tieQuery, distZero, List.filterMap_cons, List.filterMap_nil]
  norm_num [tieCand1, tieCand2, tieMatch1, tieMatch2, calculate_match_score,
    min_def, max_def]

/-- C4 counterexample: two candidates with identical scoring data, listed
with ids 2 then 1, keep their input order after ranking (Python's sort is
stable and has no id tie-break), so equal-score results are not in ascending
id order. -/
theorem find_matching_trips_tiebreak_counterexample :
    ¬ sortedByScoreDescIdAsc (find_matching_trips distZero tieQuery [tieCand2, tieCand1]) := by
  rw [find_matching_trips, buildMatches_tie, mergeSort_pair,
    if_pos (by norm_num [scoreDescLE, tieMatch1, tieMatch2] :
      scoreDescLE tieMatch2 tieMatch1 = true)]
  intro h
  rcases List.pairwise_cons.mp h with ⟨h1, -⟩
  have h2 := h1 tieMatch1 (by simp)
  norm_num [tieMatch1, tieMatch2, tieCand1, tieCand2] at h2

/-- C4 amended: the result of `rank` is sorted descending by score, and
results with equal scores appear in the order in which their candidates
survived filtering (input order, by sort stability) — not by candidate id. -/
theorem find_matching_trips_sorted (dist : Location → Location → ℚ)
    (query : TripQuery) (candidates : List TripCandidate) :
    (find_matching_trips dist query candidates).Pairwise
        (fun a b => b.match_score ≤ a.match_score) ∧
    ∀ a b, List.Sublist [a, b] (buildMatches dist query candidates) →
      b.match_score ≤ a.match_score →
      List.Sublist [a, b] (find_matching_trips dist query candidates) := by
  constructor
  · have h := List.sorted_mergeSort scoreDescLE_trans
      scoreDescLE_total (buildMatches dist query candidates)
    refine h.imp ?_
    intro a b hab
    simpa [scoreDescLE] using hab
  · intro a b hsub hle
    exact List.pair_sublist_mergeSort scoreDescLE_trans scoreDescLE_total
      (by simpa [scoreDescLE] using hle) hsub

/-- Witness for the amended C4: the stability clause applied at the concrete
tie gives the concrete output order. -/
theorem find_matching_trips_sorted_witness :
    List.Sublist [tieMatch2, tieMatch1]
      (find_matching_trips distZero tieQuery [tieCand2, tieCand1]) := by
  refine (find_matching_trips_sorted distZero tieQuery [tieCand2, tieCand1]).2
    tieMatch2 tieMatch1 ?_ ?_
  · rw [buildMatches_tie]
  · norm_num [tieMatch1, tieMatch2]

/-! ## Notification state machine: C7, C8, C10 -/

theorem find?_map_pres {α : Type} (l : List α) (f : α → α) (q : α → Bool)
    (h : ∀ x, q (f x) = q x) : (l.map f).find? q = (l.find? q).map f := by
  rw [List.find?_map, show q ∘ f = q from funext h]

/-- C8: `reject`, on a pending notification owned by the caller, marks the
notification rejected with `responded_at` set, marks the caller's request in
that group rejected with its `grouped_ride_id` cleared, and changes nothing
else: groups (hence `total_seats`), drivers and system notifications are
untouched, and every other request and notification row is unchanged. -/
theorem reject_ride_behaviour (s : State) (nid uid : Nat) (now : Int)
    (n : RideNotification) (rr : RideRequest)
    (hn : s.ride_notifications.find? (fun m => m.id == nid && m.user_id == uid) = some n)
    (hp : n.status = "pending")
    (hr : s.requests.find? (fun r =>
        r.user_id == uid && r.grouped_ride_id == some n.grouped_ride_id) = some rr) :
    ∃ s1, reject_ride s nid uid now = Except.ok s1 ∧
      s1.ride_notifications = s.ride_notifications.map (fun m =>
        if m.id == n.id then { m with status := "rejected", responded_at := some now } else m) ∧
      s1.requests = s.requests.map (fun r =>
        if r.id == rr.id then { r with status := "rejected", grouped_ride_id := none } else r) ∧
      s1.groups = s.groups ∧ s1.drivers = s.drivers ∧
      s1.system_notifications = s.system_notifications ∧
      (∀ r ∈ s.requests, r.id ≠ rr.id → r ∈ s1.requests) ∧
      (∀ m ∈ s.ride_notifications, m.id ≠ n.id → m ∈ s1.ride_notifications) := by
  unfold reject_ride
  rw [hn]
  dsimp only
  have hcond : ¬((n.status != "pending") = true) := by simp [hp]
  rw [if_neg hcond, hr]
  refine ⟨_, rfl, rfl, rfl, rfl, rfl, rfl, ?_, ?_⟩
  · intro r hrm hne
    have : (if r.id == rr.id then
        { r with status := "rejected", grouped_ride_id := none } else r) = r := by
      simp [hne]
    rw [← this]
    exact List.mem_map_of_mem _ hrm
  · intro m hmm hne
    have : (if m.id == n.id then
        { m with status := "rejected", responded_at := some now } else m) = m := by
      simp [hne]
    rw [← this]
    exact List.mem_map_of_mem _ hmm

/-- Witness for C8 at a concrete two-member group: member 1 rejects. -/
theorem reject_ride_behaviour_witness :
    ∃ s1, reject_ride c8State 3 1 9 = Except.ok s1 ∧
      s1.groups = c8State.groups ∧
      (∀ r ∈ c8State.requests, r.id ≠ 1 → r ∈ s1.requests) := by
  obtain ⟨s1, hok, -, -, hg, -, -, hframe, -⟩ :=
    reject_ride_behaviour c8State 3 1 9
      { id := 3, user_id := 1, grouped_ride_id := 0,
        notification_type := "ride_assignment", status := "pending",
        responded_at := none }
      { id := 1, user_id := 1, source_address := "campus",
        destination_address := "railway station", is_railway_station := true,
        requested_time := 0, status := "grouped", grouped_ride_id := some 0 }
      (by decide) (by decide) (by decide)
  exact ⟨s1, hok, hg, hframe⟩

/-- C7 counterexample: in `c7State` member 2 has rejected (their request left
the group), so after member 1 accepts, every non-cancelled request still in
group 0 is accepted — yet the group is not confirmed, because the
confirmation check requires every ride-assignment notification (including
the rejected one) to be `accepted`.  The claim's if-and-only-if fails. -/
theorem accept_ride_confirm_counterexample :
    accept_ride c7State 3 1 5 = Except.ok c7After ∧
    (∀ r ∈ c7After.requests,
      r.grouped_ride_id = some 0 → r.status ≠ "cancelled" → r.status = "accepted") ∧
    groupStatusById c7After 0 = some "pending_acceptance" ∧
    ¬ groupStatusById c7After 0 = some "confirmed" := by
  refine ⟨by rfl, by decide, by decide, by decide⟩

/-- C7 amended: `accept` on a pending owned notification marks it accepted
with `responded_at` set and marks the caller's request in that group
accepted; the parent group transitions to `confirmed` if and only if every
ride-assignment notification of the group (after this update) has status
`accepted` — not "every non-cancelled request": a rejected member's
notification still blocks confirmation.  On a non-pending notification the
call fails and the state is unchanged. -/
theorem accept_ride_behaviour (s : State) (nid uid : Nat) (now : Int)
    (n : RideNotification) (g : GroupedRide)
    (hn : s.ride_notifications.find? (fun m => m.id == nid && m.user_id == uid) = some n)
    (hg : s.groups.find? (fun x => x.id == n.grouped_ride_id) = some g) :
    (n.status ≠ "pending" →
      accept_ride s nid uid now = Except.error "Notification already responded to") ∧
    (n.status = "pending" → ∃ s1,
      accept_ride s nid uid now = Except.ok s1 ∧
      s1.ride_notifications = s.ride_notifications.map (fun m =>
        if m.id == n.id then { m with status := "accepted", responded_at := some now } else m) ∧
      (∀ rr, s.requests.find? (fun r =>
          r.user_id == uid && r.grouped_ride_id == some n.grouped_ride_id) = some rr →
        s1.requests = s.requests.map (fun r =>
          if r.id == rr.id then { r with status := "accepted" } else r)) ∧
      groupStatusById s1 n.grouped_ride_id =
        some (if (s1.ride_notifications.filter (fun m =>
              m.grouped_ride_id == g.id && m.notification_type == "ride_assignment")).all
              (fun m => m.status == "accepted")
          then "confirmed" else g.status)) := by
  constructor
  · intro hnp
    unfold accept_ride
    rw [hn]
    dsimp only
    rw [if_pos (by simpa using hnp)]
  · intro hp
    unfold accept_ride
    rw [hn]
    dsimp only
    have hcond : ¬((n.status != "pending") = true) := by simp [hp]
    rw [if_neg hcond, hg]
    dsimp only
    refine ⟨_, rfl, rfl, ?_, ?_⟩
    · intro rr hrr
      rw [hrr]
    · have hgid : g.id = n.grouped_ride_id := by
        have := List.find?_some hg
        simpa using this
      unfold groupStatusById
      by_cases hall : (List.all (List.filter (fun m =>
          m.grouped_ride_id == g.id && m.notification_type == "ride_assignment")
          (List.map (fun m => if m.id == n.id then
            { m with status := "accepted", responded_at := some now } else m)
            s.ride_notifications)) (fun m => m.status == "accepted")) = true
      · rw [if_pos hall]
        dsimp only
        rw [if_pos hall]
        rw [find?_map_pres _ _ _ (fun x => by
          by_cases hx : (x.id == g.id) = true <;> simp [hx]), hg]
        simp
      · rw [if_neg hall]
        dsimp only
        rw [if_neg hall, hg]
        rfl

/-- Witness for the amended C7: member 2 of a two-member group accepts; the
other notification is still pending, so the group stays `pending_acceptance`
(confirmation would come only with the final accept). -/
theorem accept_ride_behaviour_witness :
    ∃ s1, accept_ride c8State 4 2 9 = Except.ok s1 ∧
      groupStatusById s1 0 = some "pending_acceptance" := by
  obtain ⟨-, h2⟩ := accept_ride_behaviour c8State 4 2 9
      { id := 4, user_id := 2, grouped_ride_id := 0,
        notification_type := "ride_assignment", status := "pending",
        responded_at := none }
      c2Group (by rfl) (by rfl)
  obtain ⟨s1, hok, hnoti, -, hgrp⟩ := h2 rfl
  dsimp only at hgrp
  rw [hnoti] at hgrp
  refine ⟨s1, hok, ?_⟩
  rw [hgrp]
  decide

/-- C10: `mark-read` succeeds on any owned ride notification and
unconditionally sets its status to `read` (whatever the prior status),
touching nothing else; a notification marked read can then be neither
accepted nor rejected (both fail the pending check), and a read
ride-assignment notification is not counted as accepted, so it blocks the
group's transition to `confirmed` by any later accept. -/
theorem mark_read_behaviour (s : State) (nid uid : Nat) (n : RideNotification)
    (hn : s.ride_notifications.find? (fun m => m.id == nid && m.user_id == uid) = some n) :
    ∃ s1, mark_notification_read s nid uid = Except.ok s1 ∧
      s1.ride_notifications = s.ride_notifications.map (fun m =>
        if m.id == n.id then { m with status := "read" } else m) ∧
      s1.requests = s.requests ∧ s1.groups = s.groups ∧
      (∀ now : Int, accept_ride s1 nid uid now =
        Except.error "Notification already responded to") ∧
      (∀ now : Int, reject_ride s1 nid uid now =
        Except.error "Notification already responded to") ∧
      (n.notification_type = "ride_assignment" →
        ∀ nid2 uid2 : Nat, ∀ now : Int, ∀ n2 : RideNotification, ∀ g : GroupedRide,
          ∀ s2 : State,
          s1.ride_notifications.find? (fun m => m.id == nid2 && m.user_id == uid2) = some n2 →
          n2.grouped_ride_id = n.grouped_ride_id → n2.id ≠ n.id →
          s1.groups.find? (fun x => x.id == n2.grouped_ride_id) = some g →
          g.status ≠ "confirmed" →
          accept_ride s1 nid2 uid2 now = Except.ok s2 →
          ¬ groupStatusById s2 n.grouped_ride_id = some "confirmed") := by
  have hmem : n ∈ s.ride_notifications := List.mem_of_find?_eq_some hn
  have hs1 : mark_notification_read s nid uid = Except.ok
      { s with ride_notifications := s.ride_notifications.map (fun m =>
          if m.id == n.id then { m with status := "read" } else m) } := by
    unfold mark_notification_read
    rw [hn]
  refine ⟨_, hs1, rfl, rfl, rfl, ?_, ?_, ?_⟩
  all_goals clear hs1
  case _ =>  -- accept fails
    intro now
    unfold accept_ride
    rw [find?_map_pres _ _ _ (fun x => by by_cases hx : (x.id == n.id) = true <;> simp [hx]),
      hn, Option.map_some']
    dsimp only
    rw [if_pos (by simp)]
  case _ =>  -- reject fails
    intro now
    unfold reject_ride
    rw [find?_map_pres _ _ _ (fun x => by by_cases hx : (x.id == n.id) = true <;> simp [hx]),
      hn, Option.map_some']
    dsimp only
    rw [if_pos (by simp)]
  case _ =>  -- read blocks confirmation
    intro htype nid2 uid2 now n2 g s2 hn2 hgid hne hg hgc hok
    unfold accept_ride at hok
    rw [hn2] at hok
    dsimp only at hok
    by_cases hp2 : (n2.status != "pending") = true
    · rw [if_pos hp2] at hok; cases hok
    · rw [if_neg hp2, hg] at hok
      dsimp only at hok
      have hgidg : g.id = n2.grouped_ride_id := by
        have := List.find?_some hg
        simpa using this
      -- the read notification survives the accept's update and is in the filter
      have hreadmem : ({ n with status := "read" } : RideNotification) ∈
          (s.ride_notifications.map (fun m =>
            if m.id == n.id then { m with status := "read" } else m)) := by
        have : ({ n with status := "read" } : RideNotification) =
            (fun m => if m.id == n.id then { m with status := "read" } else m) n := by
          simp
        rw [this]
        exact List.mem_map_of_mem _ hmem
      have hall : ¬ ((List.map (fun m =>
            if m.id == n2.id then { m with status := "accepted", responded_at := some now } else m)
            (s.ride_notifications.map (fun m =>
              if m.id == n.id then { m with status := "read" } else m))).filter
            (fun m => m.grouped_ride_id == g.id && m.notification_type == "ride_assignment")).all
            (fun m => m.status == "accepted") = true := by
        intro hall
        have hmem2 : ({ n with status := "read" } : RideNotification) ∈
            List.map (fun m =>
              if m.id == n2.id then { m with status := "accepted", responded_at := some now } else m)
              (s.ride_notifications.map (fun m =>
                if m.id == n.id then { m with status := "read" } else m)) := by
          have heqn : ({ n with status := "read" } : RideNotification) =
              (fun m => if m.id == n2.id then { m with status := "accepted", responded_at := some now } else m)
                ({ n with status := "read" } : RideNotification) := by
            simp [show ¬ (n.id = n2.id) from fun h => hne h.symm]
          rw [heqn]
          exact List.mem_map_of_mem _ hreadmem
        have hfil : ({ n with status := "read" } : RideNotification) ∈
            (List.map (fun m =>
              if m.id == n2.id then { m with status := "accepted", responded_at := some now } else m)
              (s.ride_notifications.map (fun m =>
                if m.id == n.id then { m with status := "read" } else m))).filter
              (fun m => m.grouped_ride_id == g.id && m.notification_type == "ride_assignment") := by
          refine List.mem_filter.mpr ⟨hmem2, ?_⟩
          simp [hgidg, hgid, htype]
        have := (List.all_eq_true.mp hall) _ hfil
        simp at this
      rw [if_neg hall] at hok
      cases hok
      unfold groupStatusById
      dsimp only
      dsimp only at hg
      rw [← hgid, hg]
      simp [hgc]

/-- Witness for C10: member 1 marks their pending assignment read; accepting
and rejecting it afterwards both fail. -/
theorem mark_read_behaviour_witness :
    ∃ s1, mark_notification_read c8State 3 1 = Except.ok s1 ∧
      (∀ now : Int, accept_ride s1 3 1 now =
        Except.error "Notification already responded to") ∧
      (∀ now : Int, reject_ride s1 3 1 now =
        Except.error "Notification already responded to") := by
  obtain ⟨s1, hok, -, -, -, hacc, hrej, -⟩ :=
    mark_read_behaviour c8State 3 1
      { id := 3, user_id := 1, grouped_ride_id := 0,
        notification_type := "ride_assignment", status := "pending",
        responded_at := none }
      (by rfl)
  exact ⟨s1, hok, hacc, hrej⟩

/-! ## C2: the search/attach race outcome -/

/-- C2 counterexample: both in-flight calls find the group's last seat in
their search phase; the loser's attach-time seat check fails, and the
dispatcher returns `(none, "no_seats_available")` — it does not fall through
to the creation phase: no new group is created and the fairness queue is
never consulted (the driver pool, which held an eligible driver, is
untouched), leaving the loser's request `pending`. -/
theorem auto_group_race_counterexample :
    c2Run.2.2.phase = Phase.done none "no_seats_available" ∧
    c2Run.1.groups = c2State.groups ∧
    c2Run.1.drivers = c2State.drivers ∧
    get_next_available_driver c2State = some exDriver ∧
    reqStatusById c2Run.1 11 = some "pending" := by
  refine ⟨by decide, by decide, by decide, by decide, by decide⟩

/-- C2 amended: when the attach-time seat check fails (possible only when a
concurrent attach consumed the seat between search and attach), the
dispatcher returns the `no_seats_available` outcome with the database
unchanged, rather than falling through to the creation phase. -/
theorem workerStep_no_seats (system_admin_id : Nat) (s : State) (w : Worker)
    (gid : Nat) (g : GroupedRide)
    (hph : w.phase = Phase.attaching gid)
    (hg : s.groups.find? (fun x => x.id == gid) = some g)
    (hfull : calculate_available_seats s g = 0) :
    workerStep system_admin_id s w =
      (s, { w with phase := Phase.done none "no_seats_available" }) := by
  obtain ⟨req, ph⟩ := w
  dsimp only at hph
  subst hph
  unfold workerStep
  dsimp only
  rw [hg]
  have hadd : add_to_existing_trip s req g = (s, false) := by
    unfold add_to_existing_trip
    rw [if_pos hfull]
  dsimp only
  rw [hadd]
  rfl

/-- Witness for the amended C2: a full group and an attach-phase worker. -/
theorem workerStep_no_seats_witness :
    workerStep 7
      { requests := [c2Attached 1, c2Attached 2, c2Attached 3, c2Attached 4]
        groups := [c2Group]
        ride_notifications := []
        system_notifications := []
        drivers := [exDriver]
        admins := [7]
        nextId := 30 }
      { req := c2Fresh 11, phase := Phase.attaching 0 } =
    ({ requests := [c2Attached 1, c2Attached 2, c2Attached 3, c2Attached 4]
       groups := [c2Group]
       ride_notifications := []
       system_notifications := []
       drivers := [exDriver]
       admins := [7]
       nextId := 30 },
     { req := c2Fresh 11, phase := Phase.done none "no_seats_available" }) :=
  workerStep_no_seats 7 _ _ 0 c2Group rfl (by decide) (by decide)

/-! ## C6: notification uniqueness -/

/-- C6 counterexample: the same requester submits two poolable requests; both
attach to the same group, and `add_to_existing_trip` inserts a second
ride-assignment notification for the same (requester, group) pair — there is
no duplicate check. -/
theorem notification_uniqueness_counterexample :
    ¬ notiCountFor c6Final 1 1 ≤ 1 := by
  decide

/-- C6 amended: each successful attach inserts exactly one new
ride-assignment notification for the (requester, group) pair,
unconditionally — no existing-notification check is made, so one
notification per successful attach accumulates. -/
theorem add_to_existing_trip_notification (s : State) (req : RideRequest)
    (g : GroupedRide) (h : calculate_available_seats s g ≠ 0) :
    (add_to_existing_trip s req g).2 = true ∧
    notiCountFor (add_to_existing_trip s req g).1 req.user_id g.id =
      notiCountFor s req.user_id g.id + 1 := by
  unfold add_to_existing_trip
  rw [if_neg h]
  refine ⟨rfl, ?_⟩
  unfold notiCountFor
  dsimp only
  rw [List.countP_append]
  simp

/-- Witness for the amended C6 at a concrete group with free seats. -/
theorem add_to_existing_trip_notification_witness :
    (add_to_existing_trip c2State (c2Fresh 10) c2Group).2 = true ∧
    notiCountFor (add_to_existing_trip c2State (c2Fresh 10) c2Group).1
        (c2Fresh 10).user_id c2Group.id =
      notiCountFor c2State (c2Fresh 10).user_id c2Group.id + 1 :=
  add_to_existing_trip_notification c2State (c2Fresh 10) c2Group (by decide)

/-! ## C1: the seat-capacity invariant -/

theorem countGroupReqs_append (l1 l2 : List RideRequest) (gid : Nat) :
    countGroupReqs (l1 ++ l2) gid = countGroupReqs l1 gid + countGroupReqs l2 gid :=
  List.countP_append _ _ _

theorem countGroupReqs_map_gid_pres (l : List RideRequest) (f : RideRequest → RideRequest)
    (gid : Nat) (h : ∀ r, (f r).grouped_ride_id = r.grouped_ride_id) :
    countGroupReqs (l.map f) gid = countGroupReqs l gid := by
  unfold countGroupReqs
  rw [List.countP_map]
  exact List.countP_congr (fun r _ => by simp [Function.comp, h r])

theorem countGroupReqs_map_le (l : List RideRequest) (f : RideRequest → RideRequest)
    (gid : Nat)
    (h : ∀ r ∈ l, ((f r).grouped_ride_id == some gid) = true →
      (r.grouped_ride_id == some gid) = true) :
    countGroupReqs (l.map f) gid ≤ countGroupReqs l gid := by
  unfold countGroupReqs
  rw [List.countP_map]
  exact List.countP_mono_left h

theorem countGroupReqs_eq_zero (l : List RideRequest) (gid : Nat)
    (h : ∀ r ∈ l, r.grouped_ride_id ≠ some gid) : countGroupReqs l gid = 0 := by
  unfold countGroupReqs
  exact List.countP_eq_zero.mpr (fun r hr => by simpa using h r hr)

theorem eq_of_mem_pairwise_ne {l : List GroupedRide}
    (hnd : l.Pairwise (fun a b => a.id ≠ b.id))
    {a b : GroupedRide} (ha : a ∈ l) (hb : b ∈ l) (h : a.id = b.id) : a = b := by
  induction l with
  | nil => cases ha
  | cons c t ih =>
    rcases List.pairwise_cons.mp hnd with ⟨hc, ht⟩
    rcases List.mem_cons.mp ha with rfl | ha2 <;> rcases List.mem_cons.mp hb with rfl | hb2
    · rfl
    · exact absurd h (hc b hb2)
    · exact absurd h.symm (hc a ha2)
    · exact ih ht ha2 hb2

/-- A found matching trip is one of the groups and has a free seat. -/
theorem find_matching_facts {s : State} {dest : String} {time : Int} {trip : GroupedRide}
    (h : find_matching_railway_station_trip s dest time = some trip) :
    trip ∈ s.groups ∧ 0 < calculate_available_seats s trip := by
  unfold find_matching_railway_station_trip at h
  constructor
  · have := List.mem_of_find?_eq_some h
    exact (List.mem_filter.mp this).1
  · have := List.find?_some h
    simpa using this

theorem map_attach_eq (pre : List RideRequest) (req : RideRequest) (tid : Nat)
    (hfresh : ∀ r ∈ pre, r.id ≠ req.id) :
    (pre ++ [req]).map (fun r => if r.id == req.id
        then { r with grouped_ride_id := some tid, status := "grouped" } else r) =
      pre ++ [{ req with grouped_ride_id := some tid, status := "grouped" }] := by
  rw [List.map_append]
  congr 1
  · conv_rhs => rw [← List.map_id pre]
    apply List.map_congr_left
    intro r hr
    have hne : (r.id == req.id) = false := beq_eq_false_iff_ne.mpr (hfresh r hr)
    simp [hne]
  · simp

/-- Auto-grouping preserves the database invariant, for a freshly inserted
pending request (the only way the route calls it). -/
theorem DBInv_auto_group (s : State) (pre : List RideRequest) (req : RideRequest) (a : Nat)
    (h : DBInv s)
    (hreq : s.requests = pre ++ [req])
    (hfresh : ∀ r ∈ pre, r.id ≠ req.id)
    (hnone : req.grouped_ride_id = none) :
    DBInv (auto_group_railway_station_request s req a).1 := by
  obtain ⟨hseat, hfr, hfg, hnd⟩ := h
  have hreqmem : req ∈ s.requests := by rw [hreq]; exact List.mem_append_right _ (by simp)
  have hcountsplit : ∀ gid, countGroupReqs s.requests gid = countGroupReqs pre gid := by
    intro gid
    rw [hreq, countGroupReqs_append]
    unfold countGroupReqs
    rw [List.countP_singleton]
    simp [hnone]
  unfold auto_group_railway_station_request
  cases hfind : find_matching_railway_station_trip s req.destination_address
      req.requested_time with
  | some trip =>
    obtain ⟨htripmem, htripfree⟩ := find_matching_facts hfind
    dsimp only
    unfold add_to_existing_trip
    rw [if_neg (by omega : ¬ calculate_available_seats s trip = 0)]
    dsimp only
    rw [if_pos (rfl : true = true)]
    dsimp only
    rw [hreq, map_attach_eq pre req trip.id hfresh]
    have hcount1 : ∀ gid, countGroupReqs
        (pre ++ [{ req with grouped_ride_id := some trip.id, status := "grouped" }]) gid =
        countGroupReqs pre gid + (if trip.id = gid then 1 else 0) := by
      intro gid
      rw [countGroupReqs_append]
      unfold countGroupReqs
      rw [List.countP_singleton]
      by_cases hgid : trip.id = gid <;> simp [hgid]
    refine ⟨?_, ?_, ?_, ?_⟩
    · intro g hg
      try dsimp only at hg ⊢
      rw [hcount1]
      by_cases hgid : trip.id = g.id
      · have hgt : g = trip := eq_of_mem_pairwise_ne hnd hg htripmem (by rw [hgid])
        have hlt : countGroupReqs pre trip.id < trip.total_seats := by
          have := htripfree
          unfold calculate_available_seats at this
          rw [hcountsplit] at this
          omega
        rw [if_pos hgid]
        subst hgt
        omega
      · rw [if_neg hgid]
        have := hseat g hg
        rw [hcountsplit] at this
        omega
    · intro r hr
      try dsimp only at hr ⊢
      rcases List.mem_append.mp hr with hpre | hlast
      · have hr0 := hfr r (by rw [hreq]; exact List.mem_append_left _ hpre)
        exact ⟨by omega, fun gid hgid => by have := hr0.2 gid hgid; omega⟩
      · have : r = { req with grouped_ride_id := some trip.id, status := "grouped" } := by
          simpa using hlast
        subst this
        have hr0 := hfr req hreqmem
        refine ⟨by dsimp only; omega, fun gid hgid => ?_⟩
        dsimp only at hgid
        have : trip.id = gid := by simpa using hgid
        subst this
        have := hfg trip htripmem
        omega
    · intro g hg
      try dsimp only at hg ⊢
      have := hfg g hg
      omega
    · exact hnd
  | none =>
    dsimp only
    cases hdrv : get_next_available_driver s with
    | none =>
      unfold create_railway_station_trip
      rw [hdrv]
      exact ⟨hseat, hfr, hfg, hnd⟩
    | some d =>
      unfold create_railway_station_trip
      rw [hdrv]
      dsimp only
      have hcount0 : countGroupReqs s.requests s.nextId = 0 :=
        countGroupReqs_eq_zero _ _ (fun r hr hcon => by
          have := (hfr r hr).2 s.nextId hcon
          omega)
      have hcountpre0 : countGroupReqs pre s.nextId = 0 := by
        rw [← hcountsplit]
        exact hcount0
      unfold add_to_existing_trip
      rw [if_neg (by
        unfold calculate_available_seats
        dsimp only
        rw [hcount0]
        omega)]
      dsimp only
      rw [hreq, map_attach_eq pre req s.nextId hfresh]
      have hcount1 : ∀ gid, countGroupReqs
          (pre ++ [{ req with grouped_ride_id := some s.nextId, status := "grouped" }]) gid =
          countGroupReqs pre gid + (if s.nextId = gid then 1 else 0) := by
        intro gid
        rw [countGroupReqs_append]
        unfold countGroupReqs
        rw [List.countP_singleton]
        by_cases hgid : s.nextId = gid <;> simp [hgid]
      refine ⟨?_, ?_, ?_, ?_⟩
      · intro g hg
        try dsimp only at hg ⊢
        rw [hcount1]
        rcases List.mem_append.mp hg with hold | hnew
        · have hne : ¬ s.nextId = g.id := by
            have := hfg g hold
            omega
          rw [if_neg hne]
          have := hseat g hold
          rw [hcountsplit] at this
          omega
        · have hgeq := List.mem_singleton.mp hnew
          subst hgeq
          simp [hcountpre0]
      · intro r hr
        try dsimp only at hr ⊢
        rcases List.mem_append.mp hr with hpre | hlast
        · have hr0 := hfr r (by rw [hreq]; exact List.mem_append_left _ hpre)
          exact ⟨by omega, fun gid hgid => by have := hr0.2 gid hgid; omega⟩
        · have : r = { req with grouped_ride_id := some s.nextId, status := "grouped" } := by
            simpa using hlast
          subst this
          have hr0 := hfr req hreqmem
          refine ⟨by dsimp only; omega, fun gid hgid => ?_⟩
          dsimp only at hgid
          have : s.nextId = gid := by simpa using hgid
          omega
      · intro g hg
        try dsimp only at hg ⊢
        rcases List.mem_append.mp hg with hold | hnew
        · have := hfg g hold
          omega
        · have : g.id = s.nextId := by
            have := List.mem_singleton.mp hnew
            rw [this]
          omega
      · unfold GrpNodup
        dsimp only
        rw [List.pairwise_append]
        refine ⟨hnd, by simp, ?_⟩
        intro g hold g2 hnew
        have hg2 : g2.id = s.nextId := by
          have := List.mem_singleton.mp hnew
          rw [this]
        have := hfg g hold
        omega

/-- Request creation (with auto-grouping) preserves the database invariant. -/
theorem DBInv_create (s : State) (uid : Nat) (src dest : String) (time : Int)
    (railway : Bool) (h : DBInv s) :
    DBInv (create_ride_request s uid src dest time railway) := by
  obtain ⟨hseat, hfr, hfg, hnd⟩ := h
  have h0 : DBInv { s with
      requests := s.requests ++ [newRideRequest s uid src dest time railway]
      nextId := s.nextId + 1 } := by
    refine ⟨?_, ?_, ?_, hnd⟩
    · intro g hg
      try dsimp only at hg ⊢
      have hc : countGroupReqs
          (s.requests ++ [newRideRequest s uid src dest time railway]) g.id
          = countGroupReqs s.requests g.id := by
        rw [countGroupReqs_append]
        unfold countGroupReqs newRideRequest
        rw [List.countP_singleton]
        simp
      rw [hc]
      exact hseat g hg
    · intro r hr
      try dsimp only at hr ⊢
      rcases List.mem_append.mp hr with hpre | hlast
      · have hr0 := hfr r hpre
        exact ⟨by omega, fun gid hgid => by have := hr0.2 gid hgid; omega⟩
      · have : r = newRideRequest s uid src dest time railway := by simpa using hlast
        subst this
        constructor
        · simp only [newRideRequest]
          omega
        · intro gid hgid
          simp only [newRideRequest] at hgid
          cases hgid
    · intro g hg
      try dsimp only at hg ⊢
      have := hfg g hg
      omega
  unfold create_ride_request
  dsimp only
  by_cases hrw : railway
  · rw [if_pos hrw]
    cases hadm : s.admins.head? with
    | none => exact h0
    | some adm =>
      have hfreshids : ∀ r ∈ s.requests, r.id ≠ (newRideRequest s uid src dest time railway).id := by
        intro r hr
        have := (hfr r hr).1
        simp only [newRideRequest]
        omega
      have hag := DBInv_auto_group
        { s with requests := s.requests ++ [newRideRequest s uid src dest time railway]
                 nextId := s.nextId + 1 }
        s.requests (newRideRequest s uid src dest time railway) adm h0 rfl hfreshids rfl
      dsimp only
      rcases hga : auto_group_railway_station_request
          { s with requests := s.requests ++ [newRideRequest s uid src dest time railway]
                   nextId := s.nextId + 1 }
          (newRideRequest s uid src dest time railway) adm with ⟨s1, og, msg⟩
      rw [hga] at hag
      dsimp only
      dsimp only at hag
      by_cases hsome : og.isSome
      · rw [if_pos hsome]
        exact hag
      · rw [if_neg hsome]
        exact h0
  · rw [if_neg hrw]
    exact h0

/-- Invariant preservation for updates that only rewrite request rows
(keeping ids, and keeping or clearing group references), and replace the
group table by one with the same ids and seat totals. -/
theorem DBInv_update (s : State) (freq : RideRequest → RideRequest)
    (nreqs : List RideRequest) (ngrps : List GroupedRide)
    (notis : List RideNotification) (sysn : List SystemNotification)
    (hmap : nreqs = s.requests.map freq)
    (hfid : ∀ r, (freq r).id = r.id)
    (hfgid : ∀ r, (freq r).grouped_ride_id = r.grouped_ride_id ∨
      (freq r).grouped_ride_id = none)
    (hgrps : ∀ g ∈ ngrps, ∃ g0 ∈ s.groups, g.id = g0.id ∧ g.total_seats = g0.total_seats)
    (hgnodup : ngrps.Pairwise (fun a b => a.id ≠ b.id))
    (hgfresh : ∀ g ∈ ngrps, g.id < s.nextId)
    (h : DBInv s) :
    DBInv { requests := nreqs, groups := ngrps, ride_notifications := notis,
            system_notifications := sysn, drivers := s.drivers,
            admins := s.admins, nextId := s.nextId } := by
  obtain ⟨hseat, hfr, hfg, hnd⟩ := h
  subst hmap
  refine ⟨?_, ?_, ?_, hgnodup⟩
  · intro g hg
    try dsimp only at hg ⊢
    obtain ⟨g0, hg0, hid, htot⟩ := hgrps g hg
    have hcnt : countGroupReqs (s.requests.map freq) g.id ≤
        countGroupReqs s.requests g.id := by
      apply countGroupReqs_map_le
      intro r hr hcon
      rcases hfgid r with heq | hnone2
      · rwa [heq] at hcon
      · rw [hnone2] at hcon
        simp at hcon
    calc countGroupReqs (s.requests.map freq) g.id
        ≤ countGroupReqs s.requests g.id := hcnt
      _ = countGroupReqs s.requests g0.id := by rw [hid]
      _ ≤ g0.total_seats := hseat g0 hg0
      _ = g.total_seats := htot.symm
  · intro r hr
    try dsimp only at hr ⊢
    rw [List.mem_map] at hr
    obtain ⟨r0, hr0, rfl⟩ := hr
    have h0 := hfr r0 hr0
    constructor
    · rw [hfid r0]
      omega
    · intro gid hgid
      rcases hfgid r0 with heq | hnone2
      · rw [heq] at hgid
        have := h0.2 gid hgid
        omega
      · rw [hnone2] at hgid
        cases hgid
  · intro g hg
    try dsimp only at hg ⊢
    have := hgfresh g hg
    omega

/-- Facts about the mapped group table of a status-only group update. -/
theorem group_status_map_facts (l : List GroupedRide)
    (fg : GroupedRide → GroupedRide)
    (hid : ∀ g, (fg g).id = g.id) (htot : ∀ g, (fg g).total_seats = g.total_seats)
    (hnd : l.Pairwise (fun a b => a.id ≠ b.id)) :
    (∀ g ∈ l.map fg, ∃ g0 ∈ l, g.id = g0.id ∧ g.total_seats = g0.total_seats) ∧
    (l.map fg).Pairwise (fun a b => a.id ≠ b.id) := by
  constructor
  · intro g hg
    rw [List.mem_map] at hg
    obtain ⟨g0, hg0, rfl⟩ := hg
    exact ⟨g0, hg0, hid g0, htot g0⟩
  · rw [List.pairwise_map]
    refine hnd.imp ?_
    intro a b hab
    rw [hid a, hid b]
    exact hab

/-- `accept_ride` preserves the database invariant. -/
theorem DBInv_accept (s : State) (nid uid : Nat) (now : Int) (s1 : State)
    (h : DBInv s) (hok : accept_ride s nid uid now = Except.ok s1) : DBInv s1 := by
  unfold accept_ride at hok
  cases hn : s.ride_notifications.find? (fun m => m.id == nid && m.user_id == uid) with
  | none => rw [hn] at hok; cases hok
  | some n =>
    rw [hn] at hok
    dsimp only at hok
    by_cases hp : (n.status != "pending") = true
    · rw [if_pos hp] at hok; cases hok
    · rw [if_neg hp] at hok
      cases hgf : s.groups.find? (fun g => g.id == n.grouped_ride_id) with
      | none => rw [hgf] at hok; cases hok
      | some g =>
        rw [hgf] at hok
        dsimp only at hok
        have hfacts := group_status_map_facts s.groups
          (fun x => if x.id == g.id then { x with status := "confirmed" } else x)
          (fun x => by by_cases hx : (x.id == g.id) = true <;> simp [hx])
          (fun x => by by_cases hx : (x.id == g.id) = true <;> simp [hx])
          h.2.2.2
        have hgfresh2 : ∀ g2 ∈ s.groups.map
            (fun x => if x.id == g.id then { x with status := "confirmed" } else x),
            g2.id < s.nextId := by
          intro g2 hg2
          obtain ⟨g0, hg0, hid, -⟩ := hfacts.1 g2 hg2
          rw [hid]
          exact h.2.2.1 g0 hg0
        cases hrf : s.requests.find? (fun r =>
            r.user_id == uid && r.grouped_ride_id == some n.grouped_ride_id) with
        | some rr =>
          rw [hrf] at hok
          dsimp only at hok
          by_cases hall : ((s.ride_notifications.map (fun m =>
              if m.id == n.id then { m with status := "accepted", responded_at := some now }
              else m)).filter (fun m =>
              m.grouped_ride_id == g.id && m.notification_type == "ride_assignment")).all
              (fun m => m.status == "accepted") = true
          · rw [if_pos hall] at hok
            cases hok
            exact DBInv_update s
              (fun r => if r.id == rr.id then { r with status := "accepted" } else r)
              _ _ _ _ rfl
              (fun r => by by_cases hx : (r.id == rr.id) = true <;> simp [hx])
              (fun r => by by_cases hx : (r.id == rr.id) = true <;> simp [hx])
              hfacts.1 hfacts.2 hgfresh2 h
          · rw [if_neg hall] at hok
            cases hok
            exact DBInv_update s
              (fun r => if r.id == rr.id then { r with status := "accepted" } else r)
              _ _ _ _ rfl
              (fun r => by by_cases hx : (r.id == rr.id) = true <;> simp [hx])
              (fun r => by by_cases hx : (r.id == rr.id) = true <;> simp [hx])
              (fun g2 hg2 => ⟨g2, hg2, rfl, rfl⟩) h.2.2.2 h.2.2.1 h
        | none =>
          rw [hrf] at hok
          dsimp only at hok
          by_cases hall : ((s.ride_notifications.map (fun m =>
              if m.id == n.id then { m with status := "accepted", responded_at := some now }
              else m)).filter (fun m =>
              m.grouped_ride_id == g.id && m.notification_type == "ride_assignment")).all
              (fun m => m.status == "accepted") = true
          · rw [if_pos hall] at hok
            cases hok
            rw [show s.requests = s.requests.map (fun r => r) from by simp]
            exact DBInv_update s (fun r => r) _ _ _ _ (by simp)
              (fun r => rfl) (fun r => Or.inl rfl)
              hfacts.1 hfacts.2 hgfresh2 h
          · rw [if_neg hall] at hok
            cases hok
            rw [show s.requests = s.requests.map (fun r => r) from by simp]
            exact DBInv_update s (fun r => r) _ _ _ _ (by simp)
              (fun r => rfl) (fun r => Or.inl rfl)
              (fun g2 hg2 => ⟨g2, hg2, rfl, rfl⟩) h.2.2.2 h.2.2.1 h

/-- `reject_ride` preserves the database invariant. -/
theorem DBInv_reject (s : State) (nid uid : Nat) (now : Int) (s1 : State)
    (h : DBInv s) (hok : reject_ride s nid uid now = Except.ok s1) : DBInv s1 := by
  unfold reject_ride at hok
  cases hn : s.ride_notifications.find? (fun m => m.id == nid && m.user_id == uid) with
  | none => rw [hn] at hok; cases hok
  | some n =>
    rw [hn] at hok
    dsimp only at hok
    by_cases hp : (n.status != "pending") = true
    · rw [if_pos hp] at hok; cases hok
    · rw [if_neg hp] at hok
      cases hrf : s.requests.find? (fun r =>
          r.user_id == uid && r.grouped_ride_id == some n.grouped_ride_id) with
      | some rr =>
        rw [hrf] at hok
        dsimp only at hok
        cases hok
        exact DBInv_update s
          (fun r => if r.id == rr.id
            then { r with status := "rejected", grouped_ride_id := none } else r)
          _ _ _ _ rfl
          (fun r => by by_cases hx : (r.id == rr.id) = true <;> simp [hx])
          (fun r => by by_cases hx : (r.id == rr.id) = true <;> simp [hx])
          (fun g2 hg2 => ⟨g2, hg2, rfl, rfl⟩) h.2.2.2 h.2.2.1 h
      | none =>
        rw [hrf] at hok
        dsimp only at hok
        cases hok
        rw [show s.requests = s.requests.map (fun r => r) from by simp]
        exact DBInv_update s (fun r => r) _ _ _ _ (by simp)
          (fun r => rfl) (fun r => Or.inl rfl)
          (fun g2 hg2 => ⟨g2, hg2, rfl, rfl⟩) h.2.2.2 h.2.2.1 h

/-- Every dispatcher or state-machine call preserves the invariant. -/
theorem DBInv_applyOp (s : State) (op : Op) (h : DBInv s) : DBInv (applyOp s op) := by
  cases op with
  | create uid src dest time railway => exact DBInv_create s uid src dest time railway h
  | accept nid uid now =>
    unfold applyOp
    dsimp only
    cases hok : accept_ride s nid uid now with
    | ok s1 => exact DBInv_accept s nid uid now s1 h hok
    | error e => exact h
  | reject nid uid now =>
    unfold applyOp
    dsimp only
    cases hok : reject_ride s nid uid now with
    | ok s1 => exact DBInv_reject s nid uid now s1 h hok
    | error e => exact h

/-- C1: after any sequence of request-creation (auto-grouping), accept and
reject calls from a fresh deployment, every group satisfies
`occupiedSeats(group) ≤ totalSeats`, where `occupiedSeats` counts the ride
requests referencing the group whose status is neither rejected nor
cancelled; the dispatcher's seat check before attaching (in
`add_to_existing_trip`) maintains this bound. -/
theorem seat_capacity_invariant (drivers : List Driver) (admins : List Nat)
    (ops : List Op) :
    ∀ g ∈ (runOps (initState drivers admins) ops).groups,
      occupiedSeatsSpec (runOps (initState drivers admins) ops) g.id ≤ g.total_seats := by
  have hrun : ∀ (l : List Op) (s : State), DBInv s → DBInv (l.foldl applyOp s) := by
    intro l
    induction l with
    | nil => exact fun s h => h
    | cons op t ih => exact fun s h => ih _ (DBInv_applyOp s op h)
  have hinit : DBInv (initState drivers admins) := by
    refine ⟨?_, ?_, ?_, List.Pairwise.nil⟩ <;> intro x hx <;> cases hx
  have hinv : DBInv (runOps (initState drivers admins) ops) := hrun ops _ hinit
  intro g hg
  have hle : occupiedSeatsSpec (runOps (initState drivers admins) ops) g.id ≤
      countGroupReqs (runOps (initState drivers admins) ops).requests g.id := by
    unfold occupiedSeatsSpec countGroupReqs
    apply List.countP_mono_left
    intro r hr hcon
    simp only [Bool.and_eq_true] at hcon
    exact hcon.1
  exact le_trans hle (hinv.1 g hg)

/-- Witness for C1: after the two concrete auto-grouped requests, the
created group holds at most its four seats. -/
theorem seat_capacity_invariant_witness :
    occupiedSeatsSpec (runOps (initState [exDriver] [7]) c6Ops) 1 ≤ 4 := by
  have h := seat_capacity_invariant [exDriver] [7] c6Ops
    { id := 1, admin_id := 7, driver_id := some 50,
      destination_address := "railway station", pickup_time := 0,
      pickup_location := "campus", total_seats := 4,
      is_railway_station_trip := true, auto_created := true,
      status := "pending_acceptance" }
    (by decide)
  exact h

/-! ## C3: transactional failure semantics of request creation -/

/-- Folding session statements that are not `commit` leaves the committed
database untouched. -/
theorem foldl_committed (l : List Prim) (ss : DBSession)
    (h : ∀ p ∈ l, p ≠ Prim.commit) :
    (l.foldl applySessionPrim ss).committed = ss.committed := by
  induction l generalizing ss with
  | nil => rfl
  | cons p t ih =>
    rw [List.foldl_cons]
    rw [ih _ (fun q hq => h q (List.mem_cons_of_mem p hq))]
    cases p with
    | commit => exact absurd rfl (h Prim.commit (List.mem_cons_self _ _))
    | rollback => rfl
    | setReqGrouped rid gid => rfl
    | addRideNoti u g => rfl
    | addSysNoti u t2 m => rfl
    | addGroup g => rfl
    | incDriver d => rfl

/-- The auto-grouping code path never commits on its own. -/
theorem autoGroupPrims_no_commit (s : State) (req : RideRequest) (a : Nat) :
    ∀ p ∈ (autoGroupPrims s req a).1, p ≠ Prim.commit := by
  intro p hp
  unfold autoGroupPrims at hp
  cases hfind : find_matching_railway_station_trip s req.destination_address
      req.requested_time with
  | some trip =>
    rw [hfind] at hp
    dsimp only at hp
    split at hp
    · cases hp
    · simp only [List.mem_cons, List.not_mem_nil, or_false] at hp
      rcases hp with rfl | rfl | rfl <;> exact nofun
  | none =>
    rw [hfind] at hp
    cases hdrv : get_next_available_driver s with
    | none =>
      rw [hdrv] at hp
      cases hp
    | some d =>
      rw [hdrv] at hp
      dsimp only at hp
      rcases List.mem_append.mp hp with h2 | h3
      · simp only [List.mem_cons, List.not_mem_nil, or_false] at h2
        rcases h2 with rfl | rfl <;> exact nofun
      · split at h3
        · cases h3
        · simp only [List.mem_cons, List.not_mem_nil, or_false] at h3
          rcases h3 with rfl | rfl | rfl <;> exact nofun

/-- C3: the auto-grouping portion of `create_ride_request` is atomic.  If an
exception interrupts it after any prefix of its session statements, the
rollback-and-notify handler leaves the committed database with the new
request `pending`, the group table, ride-assignment notifications and driver
counters exactly as before.  If it completes, the request is either
`grouped` with exactly one new ride-assignment notification inserted, or
`pending` with no partial state. -/
theorem create_ride_request_transactional (s : State) (uid : Nat) (src dest : String)
    (time : Int) (failAt : Option Nat) (hfr : FreshReq s) :
    (∃ gid nidv,
      reqStatusById (create_ride_request_session s uid src dest time failAt).committed
          s.nextId = some "grouped" ∧
      (create_ride_request_session s uid src dest time failAt).committed.ride_notifications
        = s.ride_notifications ++
          [{ id := nidv, user_id := uid, grouped_ride_id := gid,
             notification_type := "ride_assignment", status := "pending",
             responded_at := none }]) ∨
    (reqStatusById (create_ride_request_session s uid src dest time failAt).committed
          s.nextId = some "pending" ∧
      (create_ride_request_session s uid src dest time failAt).committed.groups
        = s.groups ∧
      (create_ride_request_session s uid src dest time failAt).committed.ride_notifications
        = s.ride_notifications ∧
      (create_ride_request_session s uid src dest time failAt).committed.drivers
        = s.drivers) := by
  have hfind0 : s.requests.find? (fun r => r.id == s.nextId) = none := by
    apply List.find?_eq_none.mpr
    intro r hr
    have := (hfr r hr).1
    simp only [beq_iff_eq]
    omega
  have hfinds0 : (s.requests ++ [newRideRequest s uid src dest time true]).find?
      (fun r => r.id == s.nextId) = some (newRideRequest s uid src dest time true) := by
    rw [List.find?_append, hfind0, Option.none_or]
    rw [List.find?_cons_of_pos _ (by simp [newRideRequest])]
  unfold create_ride_request_session
  dsimp only
  cases hadm : s.admins.head? with
  | none =>
    right
    refine ⟨?_, rfl, rfl, rfl⟩
    unfold reqStatusById
    dsimp only
    rw [hfinds0]
    rfl
  | some adm =>
    cases failAt with
    | some k =>
      right
      dsimp only [applySessionPrim]
      rw [foldl_committed _ _ (fun p hp =>
        autoGroupPrims_no_commit _ _ adm p (List.mem_of_mem_take hp))]
      refine ⟨?_, rfl, rfl, rfl⟩
      unfold reqStatusById
      dsimp only [applyPrim]
      rw [hfinds0]
      rfl
    | none =>
      dsimp only
      unfold autoGroupPrims
      cases hfind : find_matching_railway_station_trip
          { s with requests := s.requests ++ [newRideRequest s uid src dest time true]
                   nextId := s.nextId + 1 }
          (newRideRequest s uid src dest time true).destination_address
          (newRideRequest s uid src dest time true).requested_time with
      | some trip =>
        dsimp only
        by_cases hz : calculate_available_seats
            { s with requests := s.requests ++ [newRideRequest s uid src dest time true]
                     nextId := s.nextId + 1 } trip = 0
        · rw [if_pos hz]
          right
          rw [if_neg (by simp : ¬ ((none : Option Nat).isSome = true))]
          try dsimp only [List.foldl]
          refine ⟨?_, rfl, rfl, rfl⟩
          unfold reqStatusById
          try dsimp only [List.foldl]
          rw [hfinds0]
          rfl
        · rw [if_neg hz]
          left
          rw [if_pos (by simp : ((some trip.id).isSome = true))]
          try dsimp only [applySessionPrim, applyPrim, List.foldl]
          refine ⟨trip.id, s.nextId + 1, ?_, ?_⟩
          · unfold reqStatusById
            try dsimp only
            rw [find?_map_pres _ _ _ (fun x => by
              by_cases hx : (x.id == (newRideRequest s uid src dest time true).id) = true <;>
                simp [hx])]
            rw [hfinds0]
            simp
          · try dsimp only
            rfl
      | none =>
        cases hdrv : get_next_available_driver
            { s with requests := s.requests ++ [newRideRequest s uid src dest time true]
                     nextId := s.nextId + 1 } with
        | none =>
          right
          rw [if_neg (by simp : ¬ ((none : Option Nat).isSome = true))]
          try dsimp only [List.foldl]
          refine ⟨?_, rfl, rfl, rfl⟩
          unfold reqStatusById
          try dsimp only [List.foldl]
          rw [hfinds0]
          rfl
        | some d =>
          dsimp only
          have hz : ¬ calculate_available_seats
              (applyPrim (applyPrim
                { s with requests := s.requests ++ [newRideRequest s uid src dest time true]
                         nextId := s.nextId + 1 }
                (.addGroup
                  { id := s.nextId + 1, admin_id := adm, driver_id := some d.id,
                    destination_address := (newRideRequest s uid src dest time true).destination_address,
                    pickup_time := (newRideRequest s uid src dest time true).requested_time,
                    pickup_location := (newRideRequest s uid src dest time true).source_address,
                    total_seats := 4, is_railway_station_trip := true,
                    auto_created := true, status := "pending_acceptance" }))
                (.incDriver d.id))
              { id := s.nextId + 1, admin_id := adm, driver_id := some d.id,
                destination_address := (newRideRequest s uid src dest time true).destination_address,
                pickup_time := (newRideRequest s uid src dest time true).requested_time,
                pickup_location := (newRideRequest s uid src dest time true).source_address,
                total_seats := 4, is_railway_station_trip := true,
                auto_created := true, status := "pending_acceptance" } = 0 := by
            unfold calculate_available_seats applyPrim
            dsimp only
            have hc0 : countGroupReqs
                (s.requests ++ [newRideRequest s uid src dest time true]) (s.nextId + 1) = 0 := by
              apply countGroupReqs_eq_zero
              intro r hr
              rcases List.mem_append.mp hr with hpre | hlast
              · intro hcon
                have := (hfr r hpre).2 _ hcon
                omega
              · have : r = newRideRequest s uid src dest time true := by simpa using hlast
                subst this
                simp [newRideRequest]
            rw [hc0]
            omega
          rw [if_neg hz]
          left
          rw [if_pos (by simp : ((some (s.nextId + 1)).isSome = true))]
          try dsimp only [applySessionPrim, applyPrim, List.foldl]
          refine ⟨s.nextId + 1, s.nextId + 2, ?_, ?_⟩
          · unfold reqStatusById
            try dsimp only
            rw [find?_map_pres _ _ _ (fun x => by
              by_cases hx : (x.id == (newRideRequest s uid src dest time true).id) = true <;>
                simp [hx])]
            rw [hfinds0]
            simp
          · try dsimp only
            rfl

/-- Witness for C3: a concrete railway-station request with an exception
injected after the first auto-grouping statement. -/
theorem create_ride_request_transactional_witness :
    (∃ gid nidv,
      reqStatusById (create_ride_request_session (initState [exDriver] [7]) 1 "campus"
          "railway station" 0 (some 1)).committed 0 = some "grouped" ∧
      (create_ride_request_session (initState [exDriver] [7]) 1 "campus"
          "railway station" 0 (some 1)).committed.ride_notifications
        = [] ++ [{ id := nidv, user_id := 1, grouped_ride_id := gid,
                   notification_type := "ride_assignment", status := "pending",
                   responded_at := none }]) ∨
    (reqStatusById (create_ride_request_session (initState [exDriver] [7]) 1 "campus"
          "railway station" 0 (some 1)).committed 0 = some "pending" ∧
      (create_ride_request_session (initState [exDriver] [7]) 1 "campus"
          "railway station" 0 (some 1)).committed.groups = [] ∧
      (create_ride_request_session (initState [exDriver] [7]) 1 "campus"
          "railway station" 0 (some 1)).committed.ride_notifications = [] ∧
      (create_ride_request_session (initState [exDriver] [7]) 1 "campus"
          "railway station" 0 (some 1)).committed.drivers = [exDriver]) :=
  create_ride_request_transactional (initState [exDriver] [7]) 1 "campus" "railway station" 0
    (some 1) (fun r hr => absurd hr (List.not_mem_nil r))
